import Mathlib

set_option autoImplicit false

/-!
Verification development for the Rifthold window provider
(src/src-tauri/src/lib.rs): window enumeration and filtering, the snapshot
cache, the thumbnail capture pipeline, the activation resolver, the
generation-based refresh coordinator, and the list_windows command.

Native OS calls (CoreGraphics, Accessibility, NSRunningApplication,
`open -a`) are modelled as explicit environments/oracles whose answers are
inputs; everything the Rust code computes from those answers is embedded
directly.
-/

/-! ## Thumbnail target dimensions (capture_window_thumbnail, lib.rs 669-675)

The Rust code computes, for a captured image of size `width × height` and a
cap `max_width`:
  if width > max_width { (max_width, (height as f32 * (max_width as f32 / width as f32)) as usize) }
  else { (width, height) }
`as usize` on an f32 truncates toward zero.  We model the scaled height with
exact natural arithmetic `height * max_width / width` (floor).  This agrees
with the f32 computation whenever the f32 evaluation is exact; in the
theorems below it is only applied at width 1000 / max_width 500, where the
f32 quotient is exactly 0.5 and the product is exact for heights below
2 to the 24th, so the model is bit-faithful at every input used. -/

def thumbnailTargetDims (width height max_width : Nat) : Nat × Nat :=
  if max_width < width then (max_width, height * max_width / width) else (width, height)

/-- Modelled from the spec: the height the spec prescribes,
`round(original_height * max_width / original_width)`, with halves rounded
up; used only to compare the spec wording against the code. -/
def specRoundedHeight (height max_width width : Nat) : Nat :=
  (2 * (height * max_width) + width) / (2 * width)

/-! ## Thumbnail capture pipeline (capture_window_thumbnail, lib.rs 646-749)

The native steps are inputs: `image` is CGWindowListCreateImage (none = null
image) together with the reported width/height; `contextOk` is whether
CGBitmapContextCreate succeeds at the scaled size; `dataPtrOk` is whether
CGBitmapContextGetData is non-null; `encoded` is the base64 payload the JPEG
encoder produces for a given window at the scaled size (none = encoder
error).  The control flow, the dimension computation and the data-URL
wrapping follow the code. -/

structure CaptureEnv where
  image : Int → Option (Nat × Nat)
  contextOk : Nat → Nat → Bool
  dataPtrOk : Bool
  encoded : Int → Nat → Nat → Option String

def capture_window_thumbnail (env : CaptureEnv) (window_id : Int) (max_width : Nat) :
    Option String :=
  match env.image window_id with
  | none => none
  | some wh =>
    if wh.1 = 0 || wh.2 = 0 then none
    else
      let dims := thumbnailTargetDims wh.1 wh.2 max_width
      if env.contextOk dims.1 dims.2 = false then none
      else if env.dataPtrOk = false then none
      else
        match env.encoded window_id dims.1 dims.2 with
        | none => none
        | some payload => some ("data:image/jpeg;base64," ++ payload)

/-! ## Data model (lib.rs 38-47, 458-469) -/

structure WindowInfo where
  id : String
  title : String
  app_name : String
  is_title_fallback : Bool
  thumbnail : Option String
  deriving DecidableEq, Repr

structure MacWindowEntry where
  id : String
  app_name : String
  title : String
  is_title_fallback : Bool
  owner_pid : Option Int
  deriving DecidableEq, Repr

/-- A raw window record as reported by the OS window registry.  Each field
holds the already-downcast value behind the corresponding CG dictionary key
(none = key absent or of the wrong type), matching what string_for_key /
number_for_key can observe. -/
structure RawWindow where
  window_number : Option Int
  owner_name : Option String
  window_name : Option String
  owner_pid : Option Int
  layer : Option Int
  deriving DecidableEq, Repr

/-- The OS side of one enumeration: whether create_window_list and
create_description_from_array succeed, the records they return, and the
current process id (lib.rs 852-875). -/
structure OsEnv where
  window_list_ok : Bool
  descriptions_ok : Bool
  raws : List RawWindow
  current_pid : Int
  deriving Repr

/-- Rust `s.trim().is_empty()`: true exactly when every character of `s`
is whitespace (trimming whitespace from both ends leaves the empty string
iff there is nothing but whitespace). -/
def isBlank (s : String) : Bool :=
  s.toList.all (fun c => c.isWhitespace)

/-- string_for_key (lib.rs 496-505): a present string value is kept only if
it is not blank (trimmed-empty). -/
def string_for_key (v : Option String) : Option String :=
  v.filter (fun s => !isBlank s)

/-! ## Snapshot cache (lib.rs 467-488)

`HashMap<String, MacWindowEntry>` is modelled as a shadowing association
list: insert prepends, lookup takes the first match, so the latest insert
for a key wins — observably the insert/get behaviour of the HashMap. -/

abbrev Snapshot := List (String × MacWindowEntry)

def snapInsert (s : Snapshot) (e : MacWindowEntry) : Snapshot :=
  (e.id, e) :: s

def snapFind (s : Snapshot) (id : String) : Option MacWindowEntry :=
  (s.find? (fun p => p.1 == id)).map (fun p => p.2)

/-- refresh_snapshot (lib.rs 478-484): clear, then insert every new entry. -/
def refreshSnapshot (entries : List MacWindowEntry) : Snapshot :=
  entries.foldl snapInsert []

/-! ## Enumeration first pass: extraction and filtering (lib.rs 889-919) -/

structure Pending where
  id : String
  app_name : String
  cg_title : Option String
  owner_pid : Option Int
  deriving DecidableEq, Repr

structure FirstPass where
  pending : List Pending
  skipped_self : Nat
  skipped_layers : Nat
  skipped_cc : Nat
  deriving DecidableEq, Repr

def firstPass (current_pid : Int) : List RawWindow → FirstPass
  | [] => ⟨[], 0, 0, 0⟩
  | d :: ds =>
    let rest := firstPass current_pid ds
    match d.window_number with
    | none => rest
    | some n =>
      let app_name := (string_for_key d.owner_name).getD "App"
      let layer := d.layer.getD 0
      if d.owner_pid = some current_pid then
        { rest with skipped_self := rest.skipped_self + 1 }
      else if layer ≠ 0 then
        { rest with skipped_layers := rest.skipped_layers + 1 }
      else if app_name = "Control Center" then
        { rest with skipped_cc := rest.skipped_cc + 1 }
      else
        { rest with pending :=
            ⟨toString n, app_name, string_for_key d.window_name, d.owner_pid⟩ :: rest.pending }

/-- Second pass (lib.rs 921-941): derive the display title.  A present,
non-blank CG title is used as-is (not a fallback); otherwise the app name is
the title and the entry is marked as a fallback. -/
def mkEntry (p : Pending) : MacWindowEntry :=
  match p.cg_title.filter (fun t => !isBlank t) with
  | some t => ⟨p.id, p.app_name, t, false, p.owner_pid⟩
  | none => ⟨p.id, p.app_name, p.app_name, true, p.owner_pid⟩

/-- `entry.id.parse::<i64>().unwrap_or(0)` (lib.rs 970). -/
def parseI64 (s : String) : Int :=
  (s.toInt?).getD 0

def entryToInfo (capture_thumbnails : Bool) (env : CaptureEnv) (e : MacWindowEntry) :
    WindowInfo :=
  ⟨e.id, e.title, e.app_name, e.is_title_fallback,
    if capture_thumbnails then capture_window_thumbnail env (parseI64 e.id) 500 else none⟩

structure ListResult where
  results : List WindowInfo
  snapshot : Snapshot
  skipped_self : Nat
  skipped_layers : Nat
  skipped_cc : Nat
  deriving Repr

/-- MacWindowProvider::list (lib.rs 852-1012).  Takes the snapshot it holds
before the call and returns the results together with the snapshot it holds
afterwards; the skipped counters are the logged tallies.  The two early
returns (window-id query failure, description failure) return an empty
vector before refresh_snapshot runs, so the snapshot is untouched there. -/
def MacWindowProvider.list (os : OsEnv) (env : CaptureEnv) (snap : Snapshot)
    (capture_thumbnails : Bool) : ListResult :=
  if os.window_list_ok = false then ⟨[], snap, 0, 0, 0⟩
  else if os.descriptions_ok = false then ⟨[], snap, 0, 0, 0⟩
  else
    let fp := firstPass os.current_pid os.raws
    let entries := fp.pending.map mkEntry
    let snap' := refreshSnapshot entries
    let results :=
      if capture_thumbnails then
        entries.map (fun e =>
          ⟨e.id, e.title, e.app_name, e.is_title_fallback,
            capture_window_thumbnail env (parseI64 e.id) 500⟩)
      else
        entries.map (fun e => ⟨e.id, e.title, e.app_name, e.is_title_fallback, none⟩)
    ⟨results, snap', fp.skipped_self, fp.skipped_layers, fp.skipped_cc⟩

/-! ## Activation resolver (lib.rs 517-544, 751-849, 1014-1050)

The OS answers are oracles: `pidActivateOk` is whether
NSRunningApplication activation for a pid succeeds (activate_via_pid),
`openOk` is whether `open -a name` exits successfully (activate_app),
`axWindows` is the AXWindows title list of a process (none = AX failure /
null array), `raiseOk` is whether AXRaise on the window at a given index
succeeds. -/

structure ActOracle where
  pidActivateOk : Int → Bool
  openOk : String → Bool
  axWindows : Int → Option (List String)
  raiseOk : Int → Nat → Bool

/-- Rust `str::contains`: the needle occurs as a contiguous substring. -/
def listIsPre : List Char → List Char → Bool
  | [], _ => true
  | _ :: _, [] => false
  | a :: as, b :: bs => a = b && listIsPre as bs

def listHasInf (needle : List Char) : List Char → Bool
  | [] => listIsPre needle []
  | b :: bs => listIsPre needle (b :: bs) || listHasInf needle bs

def containsSub (hay needle : String) : Bool :=
  listHasInf needle.toList hay.toList

/-- activate_window_by_title (lib.rs 751-834): walk the AXWindows of the
process, and succeed if some window whose title contains `window_title` as a
substring can be raised; any AX failure is just an unsuccessful result. -/
def activate_window_by_title (oracle : ActOracle) (pid : Int) (window_title : String) :
    Bool :=
  match oracle.axWindows pid with
  | none => false
  | some titles =>
    titles.enum.any (fun p => containsSub p.2 window_title && oracle.raiseOk pid p.1)

inductive ActError where
  | notFound (id : String)
  | missingAppName
  | openFailed
  deriving DecidableEq, Repr

/-- The observable outcome of one MacWindowProvider::activate call:
`result = none` is Ok(()); `listCalls` counts the internal `self.list(false)`
re-enumerations; `fineAttempted` is whether the fine-grained
activate_window_by_title step ran, `raiseResult` its outcome when it did,
and `delayMs` the settle sleep taken before it. -/
structure ActivateOutcome where
  result : Option ActError
  snapshot : Snapshot
  listCalls : Nat
  fineAttempted : Bool
  raiseResult : Option Bool
  delayMs : Nat
  deriving Repr

/-- Entry resolution (lib.rs 1015-1019): the cached snapshot first, then one
list(false) refresh and a second lookup.  Returns the entry (if any), the
snapshot after the call, and how many list calls were made. -/
def resolveEntry (os : OsEnv) (env : CaptureEnv) (snap : Snapshot) (id : String) :
    Option MacWindowEntry × Snapshot × Nat :=
  match snapFind snap id with
  | some e => (some e, snap, 0)
  | none =>
    let lr := MacWindowProvider.list os env snap false
    (snapFind lr.snapshot id, lr.snapshot, 1)

/-- lib.rs 1026-1030: `app_activated` is pid-level activation
(activate_via_pid) when a pid is known, never attempted otherwise. -/
def appActivated (oracle : ActOracle) (entry : MacWindowEntry) : Bool :=
  match entry.owner_pid with
  | some pid => oracle.pidActivateOk pid
  | none => false

/-- lib.rs 1032-1034 together with activate_app (lib.rs 517-544): if
pid-level activation did not succeed, fall back to name-level activation;
an empty app name is rejected up front, a failing `open -a` is an error,
and either error propagates out of activate via `?`. -/
def appStepErr (oracle : ActOracle) (entry : MacWindowEntry) : Option ActError :=
  if appActivated oracle entry then none
  else if entry.app_name = "" then some ActError.missingAppName
  else if oracle.openOk entry.app_name then none
  else some ActError.openFailed

/-- lib.rs 1036-1049: the best-effort fine-grained raise, reached only when
the application-level phase succeeded.  Ran only for a non-fallback title
with a known pid, after a 150ms settle sleep; its failure is only logged
and the call returns Ok(()) regardless. -/
def finePhase (oracle : ActOracle) (entry : MacWindowEntry) (snap1 : Snapshot) (n : Nat) :
    ActivateOutcome :=
  if entry.is_title_fallback = false then
    match entry.owner_pid with
    | some pid =>
      ⟨none, snap1, n, true, some (activate_window_by_title oracle pid entry.title), 150⟩
    | none => ⟨none, snap1, n, false, none, 0⟩
  else ⟨none, snap1, n, false, none, 0⟩

/-- MacWindowProvider::activate (lib.rs 1014-1050).  Unresolved id after one
refresh is a not-found error; then the application-level phase, whose error
is fatal; then the fine-grained phase. -/
def MacWindowProvider.activate (os : OsEnv) (env : CaptureEnv) (oracle : ActOracle)
    (snap : Snapshot) (id : String) : ActivateOutcome :=
  match resolveEntry os env snap id with
  | (none, snap1, n) => ⟨some (ActError.notFound id), snap1, n, false, none, 0⟩
  | (some entry, snap1, n) =>
    match appStepErr oracle entry with
    | some e => ⟨some e, snap1, n, false, none, 0⟩
    | none => finePhase oracle entry snap1 n

/-- MacWindowProvider::clear_title_cache (lib.rs 490-493): a deliberate
no-op, kept for API compatibility. -/
def MacWindowProvider.clear_title_cache (snap : Snapshot) : Snapshot :=
  snap

/-- MacWindowProvider::clear_cache (lib.rs 1052-1054). -/
def MacWindowProvider.clear_cache (snap : Snapshot) : Snapshot :=
  MacWindowProvider.clear_title_cache snap

/-! ## Mock provider (lib.rs 55-102) -/

structure MockOutcome where
  result : Option ActError
  listCalls : Nat
  deriving DecidableEq, Repr

/-- MockWindowProvider::activate (lib.rs 94-97): logs and returns Ok(())
for any id, performing no re-enumeration. -/
def MockWindowProvider.activate (_id : String) : MockOutcome :=
  ⟨none, 0⟩

/-- MockWindowProvider::list (lib.rs 61-92). -/
def MockWindowProvider.list (_capture_thumbnails : Bool) : List WindowInfo :=
  [⟨"1", "Mock Window — code editor", "VS Code", false, none⟩,
   ⟨"2", "Mock Window — product specs", "Notion", false, none⟩,
   ⟨"3", "Mock Window — design board", "Figma", false, none⟩,
   ⟨"4", "Mock Window — browser", "Arc", false, none⟩]

/-! ## list_windows command (lib.rs 145-161) -/

inductive SvcOp where
  | clearCacheOp
  | listOp (capture : Bool)
  deriving DecidableEq, Repr

structure CmdResult where
  results : List WindowInfo
  snapshot : Snapshot
  ops : List SvcOp
  deriving Repr

/-- The list_windows tauri command on the native provider: an omitted
refresh_cache defaults to false, an omitted capture_thumbnails defaults to
true; clear_cache runs before list exactly when the resolved refresh flag is
true.  `ops` records the provider calls in order. -/
def list_windows (os : OsEnv) (env : CaptureEnv) (snap : Snapshot)
    (refresh_cache : Option Bool) (capture_thumbnails : Option Bool) : CmdResult :=
  let refresh := refresh_cache.getD false
  let capture := capture_thumbnails.getD true
  let snap1 := if refresh then MacWindowProvider.clear_cache snap else snap
  let ops1 := if refresh then [SvcOp.clearCacheOp] else []
  let lr := MacWindowProvider.list os env snap1 capture
  ⟨lr.results, lr.snapshot, ops1 ++ [SvcOp.listOp capture]⟩

/-! ## Refresh coordinator (refresh_windows_async, lib.rs 242-319)

The command increments the shared generation counter (`fetch_add(1) + 1`
captures current+1), then runs: an initial staleness check; the blocking
list fetch; a post-fetch check; the windows:list emission; one unit per
window consisting of a pre-capture check, a pre-emit check and the
window:thumbnail emission; and finally a check guarding the
windows:thumbnails-complete emission.

This is embedded as an interleaved transition system.  Each request is a
list of units, each unit a list of atomic instructions; a scheduler step
runs one instruction of one request.  A failed check abandons the current
unit (`return` inside the corresponding task/closure).  The sequentialising
of the parallel thumbnail units of one request only fixes the relative
order of the emissions of that same request; every cross-request interleaving of checks
and emissions — the ones the claim is about — is still a schedule.
Abandoning a whole unit on the early checks of the main task matches the code
because the counter never decreases, so once a check fails every later
check of the same request fails too.  Events record the emitting request,
its captured generation and the event kind. -/

namespace Refresh

inductive EvtKind where
  | windowsList
  | windowThumbnail (w : Nat)
  | thumbnailsComplete
  deriving DecidableEq, Repr

inductive Instr where
  | start
  | check
  | emit (e : EvtKind)
  deriving DecidableEq, Repr

structure Evt where
  req : Nat
  gen : Nat
  kind : EvtKind
  deriving DecidableEq, Repr

structure Req where
  gen : Nat
  units : List (List Instr)
  deriving DecidableEq, Repr

structure Sys where
  counter : Nat
  reqs : List Req
  trace : List Evt
  deriving DecidableEq, Repr

/-- One refresh_windows_async request over the windows `ws` whose thumbnail
capture succeeds (a failed capture merely emits nothing, which is a unit
with fewer instructions): start, the checked windows:list emission, one
checked unit per thumbnail, and the checked completion emission. -/
def refreshProg (ws : List Nat) : List (List Instr) :=
  [[Instr.start], [Instr.check, Instr.check, Instr.emit EvtKind.windowsList]] ++
  ws.map (fun w => [Instr.check, Instr.check, Instr.emit (EvtKind.windowThumbnail w)]) ++
  [[Instr.check, Instr.emit EvtKind.thumbnailsComplete]]

def mkSys (progs : List (List (List Instr))) : Sys :=
  ⟨0, progs.map (fun p => ⟨0, p⟩), []⟩

/-- Run one atomic instruction of request `i`:
`start` is `REFRESH_GENERATION.fetch_add(1) + 1` (capture current+1);
`check` compares the live counter with the captured generation and abandons
the current unit on mismatch; `emit` appends the event. -/
def stepSys (σ : Sys) (i : Nat) : Sys :=
  match σ.reqs.get? i with
  | none => σ
  | some r =>
    match r.units with
    | [] => σ
    | [] :: us => { σ with reqs := σ.reqs.set i ⟨r.gen, us⟩ }
    | (Instr.start :: rest) :: us =>
      { σ with counter := σ.counter + 1,
               reqs := σ.reqs.set i ⟨σ.counter + 1, rest :: us⟩ }
    | (Instr.check :: rest) :: us =>
      if σ.counter = r.gen then { σ with reqs := σ.reqs.set i ⟨r.gen, rest :: us⟩ }
      else { σ with reqs := σ.reqs.set i ⟨r.gen, us⟩ }
    | (Instr.emit e :: rest) :: us =>
      { σ with trace := σ.trace ++ [⟨i, r.gen, e⟩],
               reqs := σ.reqs.set i ⟨r.gen, rest :: us⟩ }

def runSys (σ : Sys) : List Nat → Sys
  | [] => σ
  | i :: s => runSys (stepSys σ i) s

/-- A unit is check-headed when it cannot emit before passing a check. -/
def checkHeaded (u : List Instr) : Prop :=
  u = [] ∨ ∃ rest, u = Instr.check :: rest

/-- A request that has been superseded: its captured generation is behind
the live counter, and each of its remaining units still has its guarding
check ahead of any emission. -/
def supersededReq (c : Nat) (r : Req) : Prop :=
  r.gen < c ∧ (∀ u ∈ r.units, checkHeaded u)

def evtsOf (i : Nat) (tr : List Evt) : List Evt :=
  tr.filter (fun e => e.req == i)

end Refresh

/-! ## Derived filter predicates (the three filters of lib.rs 903-916) -/

/-- The pending tuple a raw record contributes, if it survives extraction
and the three filters; equals the body of the first-pass loop. -/
def rawToPending (current_pid : Int) (d : RawWindow) : Option Pending :=
  match d.window_number with
  | none => none
  | some n =>
    let app_name := (string_for_key d.owner_name).getD "App"
    if d.owner_pid = some current_pid then none
    else if d.layer.getD 0 ≠ 0 then none
    else if app_name = "Control Center" then none
    else some ⟨toString n, app_name, string_for_key d.window_name, d.owner_pid⟩

def hasNum (d : RawWindow) : Bool :=
  d.window_number.isSome

def isSelf (current_pid : Int) (d : RawWindow) : Bool :=
  d.owner_pid = some current_pid

def appNameOf (d : RawWindow) : String :=
  (string_for_key d.owner_name).getD "App"

def badLayer (d : RawWindow) : Bool :=
  d.layer.getD 0 ≠ 0

def isCC (d : RawWindow) : Bool :=
  appNameOf d = "Control Center"

def passAll (current_pid : Int) (d : RawWindow) : Bool :=
  hasNum d && !isSelf current_pid d && !badLayer d && !isCC d

/-! ## Concrete environments used by witnesses and counterexamples -/

/-- A capture environment in which every native step fails. -/
def capNone : CaptureEnv :=
  ⟨fun _ => none, fun _ _ => false, false, fun _ _ _ => none⟩

/-- An oracle where both activation strategies succeed and AX raising finds
nothing. -/
def oracleOk : ActOracle :=
  ⟨fun _ => true, fun _ => true, fun _ => some [], fun _ _ => false⟩

/-- An oracle where pid activation, `open -a` and the AX lookup all fail. -/
def oracleFail : ActOracle :=
  ⟨fun _ => false, fun _ => false, fun _ => none, fun _ _ => false⟩

/-- Same application-level answers as oracleOk, different AX answers. -/
def oracleRaise : ActOracle :=
  ⟨fun _ => true, fun _ => true, fun _ => some ["my notes.txt window"], fun _ _ => true⟩

/-- One window whose CG title equals the owning application name. -/
def osC4 : OsEnv :=
  ⟨true, true, [⟨some 7, some "Safari", some "Safari", some 10, some 0⟩], 99⟩

/-- One window with no CG title at all. -/
def osMail : OsEnv :=
  ⟨true, true, [⟨some 3, some "Mail", none, some 4, some 0⟩], 99⟩

/-- One ordinary titled window, id 7. -/
def osNow : OsEnv :=
  ⟨true, true, [⟨some 7, some "TextEdit", some "doc.txt", some 3, some 0⟩], 99⟩

def osEmpty : OsEnv :=
  ⟨true, true, [], 999⟩

/-- The window-id query fails. -/
def osFail : OsEnv :=
  ⟨false, true, [], 0⟩

/-- One record per filter: self-owned, wrong layer, Control Center, no
window number, and one survivor. -/
def osMix : OsEnv :=
  ⟨true, true,
    [⟨some 1, some "Rifthold", none, some 77, some 0⟩,
     ⟨some 2, some "Dock", none, some 5, some 25⟩,
     ⟨some 3, some "Control Center", none, some 6, some 0⟩,
     ⟨none, some "Ghost", none, some 8, some 0⟩,
     ⟨some 4, some "Safari", some "Apple", some 9, some 0⟩],
    77⟩

/-- A cached snapshot holding one resolvable entry with a real title. -/
def snapC5 : Snapshot :=
  [("5", ⟨"5", "EditorApp", "notes.txt", false, some 9⟩)]

/-- A cached snapshot holding one entry whose id the OS no longer lists. -/
def snapStale : Snapshot :=
  [("42", ⟨"42", "GoneApp", "GoneApp", true, some 4⟩)]

namespace Refresh

/-- Two overlapping zero-window refresh requests. -/
def twoReqs : Sys :=
  mkSys [refreshProg [], refreshProg []]

def oneReq : Sys :=
  mkSys [refreshProg []]

/-- A request of generation 1 that has been superseded (counter 2) while
still holding its final checked completion unit. -/
def superState : Sys :=
  ⟨2, [⟨1, [[Instr.check, Instr.emit EvtKind.thumbnailsComplete]]⟩], []⟩

end Refresh

namespace Refresh

theorem stepSys_counter_le (σ : Sys) (i : Nat) : σ.counter ≤ (stepSys σ i).counter := by
  unfold stepSys
  split
  · exact Nat.le_refl _
  · split
    · exact Nat.le_refl _
    · exact Nat.le_refl _
    · exact Nat.le_succ _
    · split
      · exact Nat.le_refl _
      · exact Nat.le_refl _
    · exact Nat.le_refl _

theorem stepSys_get_other (σ : Sys) (i j : Nat) (h : j ≠ i) :
    (stepSys σ j).reqs.get? i = σ.reqs.get? i := by
  unfold stepSys
  split
  · rfl
  · split
    · rfl
    · exact List.get?_set_ne _ _ h
    · exact List.get?_set_ne _ _ h
    · split
      · exact List.get?_set_ne _ _ h
      · exact List.get?_set_ne _ _ h
    · exact List.get?_set_ne _ _ h

theorem stepSys_trace_shape (σ : Sys) (j : Nat) :
    (stepSys σ j).trace = σ.trace ∨
      ∃ g k, (stepSys σ j).trace = σ.trace ++ [⟨j, g, k⟩] := by
  unfold stepSys
  split
  · exact Or.inl rfl
  · split
    · exact Or.inl rfl
    · exact Or.inl rfl
    · exact Or.inl rfl
    · split
      · exact Or.inl rfl
      · exact Or.inl rfl
    · exact Or.inr ⟨_, _, rfl⟩

theorem evtsOf_append (i : Nat) (t : List Evt) (e : Evt) :
    evtsOf i (t ++ [e]) = evtsOf i t ++ (if e.req == i then [e] else []) := by
  unfold evtsOf
  rw [List.filter_append]
  rcases h : (e.req == i) <;> simp [List.filter, h]

end Refresh

namespace Refresh

theorem get?_set_self {α : Type} (l : List α) (i : Nat) (a b : α) (h : l.get? i = some b) :
    (l.set i a).get? i = some a := by
  rw [List.get?_set_eq]
  rw [h]
  rfl

theorem step_preserves_superseded (σ : Sys) (i j : Nat) (r : Req)
    (hr : σ.reqs.get? i = some r) (hs : supersededReq σ.counter r) :
    ∃ r', (stepSys σ j).reqs.get? i = some r' ∧
      supersededReq (stepSys σ j).counter r' ∧
      evtsOf i (stepSys σ j).trace = evtsOf i σ.trace := by
  by_cases hij : j = i
  · subst hij
    have hr' : σ.reqs[j]? = some r := by rw [← List.get?_eq_getElem?]; exact hr
    rcases hs with ⟨hlt, hu⟩
    cases hru : r.units with
    | nil =>
      have hstep : stepSys σ j = σ := by simp [stepSys, hr', hru]
      exact ⟨r, by rw [hstep]; exact hr, by rw [hstep]; exact ⟨hlt, hu⟩, by rw [hstep]⟩
    | cons u us =>
      have hcu : checkHeaded u := hu u (by rw [hru]; exact List.mem_cons_self u us)
      have hus : ∀ v ∈ us, checkHeaded v := by
        intro v hv
        exact hu v (by rw [hru]; exact List.mem_cons_of_mem u hv)
      have hgoal : ∀ hstep : stepSys σ j =
          { σ with reqs := σ.reqs.set j ⟨r.gen, us⟩ },
          ∃ r', (stepSys σ j).reqs.get? j = some r' ∧
            supersededReq (stepSys σ j).counter r' ∧
            evtsOf j (stepSys σ j).trace = evtsOf j σ.trace := by
        intro hstep
        refine ⟨⟨r.gen, us⟩, ?_, ?_, ?_⟩
        · rw [hstep]
          exact get?_set_self σ.reqs j _ r hr
        · rw [hstep]
          exact ⟨hlt, hus⟩
        · rw [hstep]
      rcases hcu with rfl | ⟨rest, rfl⟩
      · exact hgoal (by simp [stepSys, hr', hru])
      · have hne : ¬ σ.counter = r.gen := Nat.ne_of_gt hlt
        exact hgoal (by simp [stepSys, hr', hru, hne])
  · have hget := stepSys_get_other σ i j hij
    refine ⟨r, hget.symm ▸ hr,
      ⟨Nat.lt_of_lt_of_le hs.1 (stepSys_counter_le σ j), hs.2⟩, ?_⟩
    rcases stepSys_trace_shape σ j with h | ⟨g, k, h⟩
    · rw [h]
    · have hb : ((Evt.mk j g k).req == i) = false := by simp [hij]
      rw [h, evtsOf_append, hb]
      simp

theorem runSys_superseded_silent : ∀ (s : List Nat) (σ : Sys) (i : Nat) (r : Req),
    σ.reqs.get? i = some r → supersededReq σ.counter r →
    evtsOf i (runSys σ s).trace = evtsOf i σ.trace := by
  intro s
  induction s with
  | nil => intro σ i r _ _; rfl
  | cons j s ih =>
    intro σ i r hr hs
    obtain ⟨r', h1, h2, h3⟩ := step_preserves_superseded σ i j r hr hs
    rw [runSys, ih (stepSys σ j) i r' h1 h2, h3]

theorem stepSys_start (σ : Sys) (i : Nat) (r : Req) (rest : List Instr)
    (us : List (List Instr)) (hr : σ.reqs.get? i = some r)
    (hu : r.units = (Instr.start :: rest) :: us) :
    (stepSys σ i).counter = σ.counter + 1 ∧
    (stepSys σ i).reqs.get? i = some ⟨σ.counter + 1, rest :: us⟩ := by
  have hr' : σ.reqs[i]? = some r := by rw [← List.get?_eq_getElem?]; exact hr
  have hstep : stepSys σ i =
      { σ with counter := σ.counter + 1,
               reqs := σ.reqs.set i ⟨σ.counter + 1, rest :: us⟩ } := by
    simp [stepSys, hr', hu]
  exact ⟨by rw [hstep], by rw [hstep]; exact get?_set_self σ.reqs i _ r hr⟩

end Refresh

/-- C1 (amended): every refresh request captures generation current+1 at its
start (the fetch_add returns the old counter, so the captured value is the
incremented one), and a request that has been superseded at one of its
checkpoints — the live counter has moved past its captured generation while
every remaining unit still has its guarding check ahead of any emission —
emits nothing further under any scheduling: none of the windows:list,
window:thumbnail or windows:thumbnails-complete events of that generation
appear after such a checkpoint fails.  The absolute form of the original
claim (no g1 event at all after g2 starts) is refuted by the accompanying
counterexample: the check and the emission are separate atomic steps, so an
emission whose checkpoint passed before the newer request started may still
be delivered after it. -/
theorem refresh_generation_checkpoint_gating :
    (∀ (σ : Refresh.Sys) (i : Nat) (r : Refresh.Req) (rest : List Refresh.Instr)
        (us : List (List Refresh.Instr)),
        σ.reqs.get? i = some r → r.units = (Refresh.Instr.start :: rest) :: us →
        (Refresh.stepSys σ i).counter = σ.counter + 1 ∧
        (Refresh.stepSys σ i).reqs.get? i = some ⟨σ.counter + 1, rest :: us⟩) ∧
    (∀ (s : List Nat) (σ : Refresh.Sys) (i : Nat) (r : Refresh.Req),
        σ.reqs.get? i = some r → Refresh.supersededReq σ.counter r →
        Refresh.evtsOf i (Refresh.runSys σ s).trace = Refresh.evtsOf i σ.trace) :=
  ⟨Refresh.stepSys_start, Refresh.runSys_superseded_silent⟩

/-- C1 witness: the capture step on a concrete fresh request, and the
silence of a concrete superseded request under a concrete schedule. -/
theorem refresh_gating_witness :
    ((Refresh.stepSys Refresh.oneReq 0).counter = 0 + 1 ∧
      (Refresh.stepSys Refresh.oneReq 0).reqs.get? 0 =
        some ⟨0 + 1, [] ::
          [[Refresh.Instr.check, Refresh.Instr.check,
            Refresh.Instr.emit Refresh.EvtKind.windowsList],
           [Refresh.Instr.check, Refresh.Instr.emit Refresh.EvtKind.thumbnailsComplete]]⟩) ∧
    Refresh.evtsOf 0 (Refresh.runSys Refresh.superState [0, 0, 0]).trace =
      Refresh.evtsOf 0 Refresh.superState.trace :=
  ⟨refresh_generation_checkpoint_gating.1 Refresh.oneReq 0 ⟨0, Refresh.refreshProg []⟩
      [] _ rfl rfl,
   refresh_generation_checkpoint_gating.2 [0, 0, 0] Refresh.superState 0
      ⟨1, [[Refresh.Instr.check, Refresh.Instr.emit Refresh.EvtKind.thumbnailsComplete]]⟩
      rfl
      ⟨Nat.one_lt_two, by
        intro u hu
        simp only [List.mem_singleton] at hu
        subst hu
        exact Or.inr ⟨_, rfl⟩⟩⟩

/-- C1 counterexample: two overlapping zero-window refresh requests with
generations g1 = 1 < g2 = 2.  After the schedule [0,0,0,0,1], request 0 has
passed both of its pre-emission checkpoints and request 1 has started
(counter = 2, its generation is 2) with no event emitted yet; one more step
of request 0 then emits the windows:list event tagged with generation 1.
So an event from the g1 work is emitted after g2 has started, refuting the
claim that no such event can be observed. -/
theorem refresh_stale_emission_after_newer_start :
    (Refresh.runSys Refresh.twoReqs [0, 0, 0, 0, 1]).trace = [] ∧
    (Refresh.runSys Refresh.twoReqs [0, 0, 0, 0, 1]).counter = 2 ∧
    ((Refresh.runSys Refresh.twoReqs [0, 0, 0, 0, 1]).reqs.get? 1).map Refresh.Req.gen =
      some 2 ∧
    (Refresh.runSys Refresh.twoReqs [0, 0, 0, 0, 1, 0]).trace =
      [⟨0, 1, Refresh.EvtKind.windowsList⟩] := by
  decide

theorem firstPass_spec (pid : Int) (raws : List RawWindow) :
    (firstPass pid raws).pending = raws.filterMap (rawToPending pid) ∧
    (firstPass pid raws).skipped_self =
      raws.countP (fun d => hasNum d && isSelf pid d) ∧
    (firstPass pid raws).skipped_layers =
      raws.countP (fun d => hasNum d && !isSelf pid d && badLayer d) ∧
    (firstPass pid raws).skipped_cc =
      raws.countP (fun d => hasNum d && !isSelf pid d && !badLayer d && isCC d) := by
  induction raws with
  | nil => exact ⟨rfl, rfl, rfl, rfl⟩
  | cons d ds ih =>
    obtain ⟨ih1, ih2, ih3, ih4⟩ := ih
    cases hn : d.window_number with
    | none =>
      have hnum : hasNum d = false := by simp [hasNum, hn]
      refine ⟨?_, ?_, ?_, ?_⟩ <;>
        simp [firstPass, rawToPending, hn, hnum, List.countP_cons, ih1, ih2, ih3, ih4]
    | some n =>
      have hnum : hasNum d = true := by simp [hasNum, hn]
      by_cases h1 : d.owner_pid = some pid
      · have hself : isSelf pid d = true := by simp [isSelf, h1]
        refine ⟨?_, ?_, ?_, ?_⟩ <;>
          simp [firstPass, rawToPending, hn, hnum, h1, hself, List.countP_cons,
            ih1, ih2, ih3, ih4]
      · have hself : isSelf pid d = false := by simp [isSelf, h1]
        by_cases h2 : d.layer.getD 0 ≠ 0
        · have hlay : badLayer d = true := by simp [badLayer, h2]
          refine ⟨?_, ?_, ?_, ?_⟩ <;>
            simp [firstPass, rawToPending, hn, hnum, h1, hself, h2, hlay,
              List.countP_cons, ih1, ih2, ih3, ih4]
        · have hlay : badLayer d = false := by
            simp only [badLayer]
            simp only [ne_eq, not_not] at h2
            simp [h2]
          by_cases h3 : (string_for_key d.owner_name).getD "App" = "Control Center"
          · have hcc : isCC d = true := by simp [isCC, appNameOf, h3]
            refine ⟨?_, ?_, ?_, ?_⟩ <;>
              simp [firstPass, rawToPending, hn, hnum, h1, hself, h2, hlay, h3, hcc,
                List.countP_cons, ih1, ih2, ih3, ih4]
          · have hcc : isCC d = false := by simp [isCC, appNameOf, h3]
            refine ⟨?_, ?_, ?_, ?_⟩ <;>
              simp [firstPass, rawToPending, hn, hnum, h1, hself, h2, hlay, h3, hcc,
                List.countP_cons, ih1, ih2, ih3, ih4]

theorem list_ok (os : OsEnv) (env : CaptureEnv) (snap : Snapshot) (ct : Bool)
    (h1 : os.window_list_ok = true) (h2 : os.descriptions_ok = true) :
    MacWindowProvider.list os env snap ct =
      ⟨((firstPass os.current_pid os.raws).pending.map mkEntry).map (entryToInfo ct env),
       refreshSnapshot ((firstPass os.current_pid os.raws).pending.map mkEntry),
       (firstPass os.current_pid os.raws).skipped_self,
       (firstPass os.current_pid os.raws).skipped_layers,
       (firstPass os.current_pid os.raws).skipped_cc⟩ := by
  unfold MacWindowProvider.list
  cases ct <;> simp [h1, h2, entryToInfo]

theorem list_fail (os : OsEnv) (env : CaptureEnv) (snap : Snapshot) (ct : Bool)
    (h : os.window_list_ok = false ∨ os.descriptions_ok = false) :
    MacWindowProvider.list os env snap ct = ⟨[], snap, 0, 0, 0⟩ := by
  unfold MacWindowProvider.list
  rcases h with h | h
  · simp [h]
  · rcases hw : os.window_list_ok <;> simp [h, hw]

theorem snapFind_insert_none (acc : Snapshot) (e : MacWindowEntry) (id : String) :
    snapFind (snapInsert acc e) id = none ↔ (e.id ≠ id ∧ snapFind acc id = none) := by
  unfold snapInsert snapFind
  by_cases h : e.id = id
  · simp [List.find?_cons, h]
  · simp [List.find?_cons, h]

theorem snapFind_foldl_none (es : List MacWindowEntry) (acc : Snapshot) (id : String) :
    snapFind (es.foldl snapInsert acc) id = none ↔
      (∀ e ∈ es, e.id ≠ id) ∧ snapFind acc id = none := by
  induction es generalizing acc with
  | nil => simp
  | cons e es ih =>
    rw [List.foldl_cons, ih, snapFind_insert_none]
    constructor
    · rintro ⟨h1, h2, h3⟩
      refine ⟨?_, h3⟩
      intro f hf
      rcases List.mem_cons.mp hf with rfl | hf2
      · exact h2
      · exact h1 f hf2
    · rintro ⟨h1, h2⟩
      exact ⟨fun f hf => h1 f (List.mem_cons_of_mem e hf),
        h1 e (List.mem_cons_self e es), h2⟩

theorem snapFind_refreshSnapshot_none (es : List MacWindowEntry) (id : String) :
    snapFind (refreshSnapshot es) id = none ↔ ∀ e ∈ es, e.id ≠ id := by
  unfold refreshSnapshot
  rw [snapFind_foldl_none]
  simp [snapFind]

/-- C3 (amended): a captured width above the fixed maximum 500 is capped at
exactly 500; for a source of width 1000 the output height is the truncation
floor(h/2) of h * 0.5 — not the rounding the spec prescribes; and a source
of width at most 500 keeps its native dimensions.  The 2^24 bound keeps the
exact-arithmetic model bit-faithful to the f32 evaluation in the code. -/
theorem thumbnail_dims_cap_and_truncation :
    (∀ w h : Nat, 500 < w → (thumbnailTargetDims w h 500).1 = 500) ∧
    (∀ h : Nat, h < 2 ^ 24 → thumbnailTargetDims 1000 h 500 = (500, h / 2)) ∧
    (∀ w h : Nat, w ≤ 500 → thumbnailTargetDims w h 500 = (w, h)) := by
  refine ⟨?_, ?_, ?_⟩
  · intro w h hw
    simp [thumbnailTargetDims, hw]
  · intro h _
    have h1000 : (500 : Nat) < 1000 := by norm_num
    simp only [thumbnailTargetDims, if_pos h1000]
    have : h * 500 / 1000 = h / 2 := by
      have : (1000 : Nat) = 500 * 2 := by norm_num
      rw [this, Nat.mul_comm h 500, Nat.mul_div_mul_left h 2 (by norm_num : (0:Nat) < 500)]
    rw [this]
  · intro w h hw
    simp [thumbnailTargetDims, Nat.not_lt.mpr hw]

/-- C3 witness: concrete dimensions 1000x600 (capped and halved) and
400x300 (kept). -/
theorem thumbnail_dims_witness :
    ((500 : Nat) < 1000 ∧ (thumbnailTargetDims 1000 600 500).1 = 500) ∧
    (600 < 2 ^ 24 ∧ thumbnailTargetDims 1000 600 500 = (500, 300)) ∧
    (400 ≤ 500 ∧ thumbnailTargetDims 400 300 500 = (400, 300)) :=
  ⟨⟨by norm_num, thumbnail_dims_cap_and_truncation.1 1000 600 (by norm_num)⟩,
   ⟨by norm_num, thumbnail_dims_cap_and_truncation.2.1 600 (by norm_num)⟩,
   ⟨by norm_num, thumbnail_dims_cap_and_truncation.2.2 400 300 (by norm_num)⟩⟩

/-- C3 counterexample: at source size 1000x999 the code truncates
999 * 0.5 = 499.5 down to 499, while round(999 * 500 / 1000) = 500. -/
theorem thumbnail_height_round_refuted :
    thumbnailTargetDims 1000 999 500 = (500, 499) ∧
    specRoundedHeight 999 500 1000 = 500 ∧ (499 : Nat) ≠ 500 := by
  decide

/-- C6: when the OS window registry query or its description lookup fails,
list returns the empty sequence — it cannot propagate an error, its type is
a plain result list — and the snapshot cache is left exactly as it was, so
it still reflects the most recent successful enumeration. -/
theorem list_enumeration_failure_recovery :
    ∀ (os : OsEnv) (env : CaptureEnv) (snap : Snapshot) (ct : Bool),
      os.window_list_ok = false ∨ os.descriptions_ok = false →
      (MacWindowProvider.list os env snap ct).results = [] ∧
      (MacWindowProvider.list os env snap ct).snapshot = snap := by
  intro os env snap ct h
  rw [list_fail os env snap ct h]
  exact ⟨rfl, rfl⟩

/-- C6 witness: a failing registry query over a concrete prior snapshot. -/
theorem list_enumeration_failure_recovery_witness :
    (osFail.window_list_ok = false ∨ osFail.descriptions_ok = false) ∧
    (MacWindowProvider.list osFail capNone snapStale true).results = [] ∧
    (MacWindowProvider.list osFail capNone snapStale true).snapshot = snapStale :=
  ⟨Or.inl rfl,
   list_enumeration_failure_recovery osFail capNone snapStale true (Or.inl rfl)⟩

/-- C7: with capture requested, the result list is exactly the
no-thumbnail result list with each thumbnail computed independently from
that same entry via capture_window_thumbnail — whose result is none
whenever any native step (null or zero-sized image, context creation, data
pointer, encoder) fails.  A failed capture therefore yields thumbnail =
none for that entry only; the length and every other field are unaffected,
and the whole call never aborts. -/
theorem thumbnails_independent_per_entry :
    ∀ (os : OsEnv) (env : CaptureEnv) (snap : Snapshot),
      (MacWindowProvider.list os env snap true).results =
        (MacWindowProvider.list os env snap false).results.map
          (fun w => ⟨w.id, w.title, w.app_name, w.is_title_fallback,
            capture_window_thumbnail env (parseI64 w.id) 500⟩) ∧
      (MacWindowProvider.list os env snap true).results.length =
        (MacWindowProvider.list os env snap false).results.length ∧
      (MacWindowProvider.list os env snap true).snapshot =
        (MacWindowProvider.list os env snap false).snapshot := by
  intro os env snap
  rcases hw : os.window_list_ok with _ | _
  · rw [list_fail os env snap true (Or.inl hw), list_fail os env snap false (Or.inl hw)]
    exact ⟨rfl, rfl, rfl⟩
  · rcases hd : os.descriptions_ok with _ | _
    · rw [list_fail os env snap true (Or.inr hd), list_fail os env snap false (Or.inr hd)]
      exact ⟨rfl, rfl, rfl⟩
    · rw [list_ok os env snap true hw hd, list_ok os env snap false hw hd]
      refine ⟨?_, by simp, rfl⟩
      simp only [List.map_map]
      have hfun : (fun w : WindowInfo =>
          ({ id := w.id, title := w.title, app_name := w.app_name,
             is_title_fallback := w.is_title_fallback,
             thumbnail := capture_window_thumbnail env (parseI64 w.id) 500 } : WindowInfo)) ∘
          entryToInfo false env ∘ mkEntry = entryToInfo true env ∘ mkEntry := by
        funext p
        simp [entryToInfo, Function.comp]
      rw [hfun]

/-- C10: the list_windows command treats an omitted refresh_cache as false
and an omitted capture_thumbnails as true, so a call with both omitted
captures thumbnails without clearing; and clear_cache is invoked, before
the list call, exactly when the resolved refresh flag is true. -/
theorem list_windows_defaults :
    ∀ (os : OsEnv) (env : CaptureEnv) (snap : Snapshot) (r c : Option Bool),
      (list_windows os env snap none none).ops = [SvcOp.listOp true] ∧
      (list_windows os env snap none none).results =
        (MacWindowProvider.list os env snap true).results ∧
      ((list_windows os env snap r c).ops =
        (if r.getD false then [SvcOp.clearCacheOp] else []) ++
          [SvcOp.listOp (c.getD true)]) ∧
      (SvcOp.clearCacheOp ∈ (list_windows os env snap r c).ops ↔ r = some true) := by
  intro os env snap r c
  refine ⟨rfl, rfl, rfl, ?_⟩
  rcases r with _ | b
  · simp [list_windows]
  · rcases b <;> simp [list_windows]

theorem mkEntry_fallback_title (p : Pending) :
    (mkEntry p).is_title_fallback = true → (mkEntry p).title = (mkEntry p).app_name := by
  unfold mkEntry
  cases p.cg_title.filter (fun t => !isBlank t) <;> simp

theorem mem_results_entry (os : OsEnv) (env : CaptureEnv) (snap : Snapshot) (ct : Bool)
    (w : WindowInfo) (hw : w ∈ (MacWindowProvider.list os env snap ct).results) :
    ∃ p, w = entryToInfo ct env (mkEntry p) := by
  rcases hwl : os.window_list_ok with _ | _
  · rw [list_fail os env snap ct (Or.inl hwl)] at hw
    simp at hw
  · rcases hdc : os.descriptions_ok with _ | _
    · rw [list_fail os env snap ct (Or.inr hdc)] at hw
      simp at hw
    · rw [list_ok os env snap ct hwl hdc] at hw
      simp only [List.map_map, List.mem_map] at hw
      obtain ⟨p, _, hp⟩ := hw
      exact ⟨p, hp.symm⟩

/-- C4 (amended): a fallback title always equals the application name, and
an entry is a fallback exactly when the record has no usable (present,
non-blank) native title; but a present native title is used verbatim with
is_title_fallback = false even when it coincides with the application name,
so title = app_name does not imply is_title_fallback. -/
theorem title_fallback_semantics :
    (∀ (os : OsEnv) (env : CaptureEnv) (snap : Snapshot) (ct : Bool) (w : WindowInfo),
        w ∈ (MacWindowProvider.list os env snap ct).results →
        w.is_title_fallback = true → w.title = w.app_name) ∧
    (∀ p : Pending, ((mkEntry p).is_title_fallback = true ↔
        p.cg_title.filter (fun t => !isBlank t) = none)) ∧
    (∀ (p : Pending) (t : String), p.cg_title.filter (fun t => !isBlank t) = some t →
        mkEntry p = ⟨p.id, p.app_name, t, false, p.owner_pid⟩) := by
  refine ⟨?_, ?_, ?_⟩
  · intro os env snap ct w hw hf
    obtain ⟨p, rfl⟩ := mem_results_entry os env snap ct w hw
    have hfe : (mkEntry p).is_title_fallback = true := hf
    have := mkEntry_fallback_title p hfe
    simpa [entryToInfo] using this
  · intro p
    unfold mkEntry
    cases p.cg_title.filter (fun t => !isBlank t) <;> simp
  · intro p t ht
    unfold mkEntry
    rw [ht]

/-- C4 witness: a window of the Mail app with no native title gets the
fallback title Mail; a present title is kept verbatim as non-fallback. -/
theorem title_fallback_semantics_witness :
    ((⟨"3", "Mail", "Mail", true, none⟩ : WindowInfo) ∈
        (MacWindowProvider.list osMail capNone [] false).results ∧
      (⟨"3", "Mail", "Mail", true, none⟩ : WindowInfo).is_title_fallback = true ∧
      (⟨"3", "Mail", "Mail", true, none⟩ : WindowInfo).title =
        (⟨"3", "Mail", "Mail", true, none⟩ : WindowInfo).app_name) ∧
    ((mkEntry ⟨"3", "Mail", none, some 4⟩).is_title_fallback = true ↔
      (Pending.mk "3" "Mail" none (some 4)).cg_title.filter (fun t => !isBlank t) = none) ∧
    ((Pending.mk "7" "Safari" (some "Safari") (some 10)).cg_title.filter
        (fun t => !isBlank t) = some "Safari" ∧
      mkEntry ⟨"7", "Safari", some "Safari", some 10⟩ =
        ⟨"7", "Safari", "Safari", false, some 10⟩) :=
  ⟨⟨by decide, rfl,
    title_fallback_semantics.1 osMail capNone [] false _ (by decide) rfl⟩,
   title_fallback_semantics.2.1 ⟨"3", "Mail", none, some 4⟩,
   ⟨by decide,
    title_fallback_semantics.2.2 ⟨"7", "Safari", some "Safari", some 10⟩ "Safari" (by decide)⟩⟩

/-- C4 counterexample: a window whose native title is the string Safari
owned by the application Safari yields title = app_name with
is_title_fallback = false, refuting the claimed if-and-only-if. -/
theorem title_fallback_iff_refuted :
    (MacWindowProvider.list osC4 capNone [] false).results =
      [⟨"7", "Safari", "Safari", false, none⟩] ∧
    ¬ (∀ w ∈ (MacWindowProvider.list osC4 capNone [] false).results,
        (w.is_title_fallback = true ↔ w.title = w.app_name)) := by
  decide

theorem length_filterMap_countP {α β : Type} (f : α → Option β) (l : List α) :
    (l.filterMap f).length = l.countP (fun a => (f a).isSome) := by
  induction l with
  | nil => rfl
  | cons a l ih =>
    cases hf : f a <;> simp [List.filterMap_cons, hf, List.countP_cons, ih]

theorem rawToPending_isSome (pid : Int) (d : RawWindow) :
    (rawToPending pid d).isSome = passAll pid d := by
  unfold rawToPending passAll hasNum isSelf badLayer isCC appNameOf
  cases hn : d.window_number
  · simp [hn]
  · by_cases h1 : d.owner_pid = some pid
    · simp [hn, h1]
    · by_cases h2 : d.layer.getD 0 ≠ 0
      · simp [hn, h1, h2]
      · by_cases h3 : (string_for_key d.owner_name).getD "App" = "Control Center"
        · simp [hn, h1, h2, h3]
        · simp [hn, h1, h2, h3]

/-- C9: the three filters are applied to each raw record in the claimed
order — current-process owner first, then non-zero layer, then the Control
Center owner — as pinned down by the skip counters, each of which counts
exactly the records rejected by its filter and passed by the earlier ones;
and the result entries are precisely the surviving records. -/
theorem enumeration_filter_pipeline :
    ∀ (os : OsEnv) (env : CaptureEnv) (snap : Snapshot) (ct : Bool),
      os.window_list_ok = true → os.descriptions_ok = true →
      (MacWindowProvider.list os env snap ct).results.length =
        os.raws.countP (passAll os.current_pid) ∧
      (MacWindowProvider.list os env snap ct).skipped_self =
        os.raws.countP (fun d => hasNum d && isSelf os.current_pid d) ∧
      (MacWindowProvider.list os env snap ct).skipped_layers =
        os.raws.countP (fun d => hasNum d && !isSelf os.current_pid d && badLayer d) ∧
      (MacWindowProvider.list os env snap ct).skipped_cc =
        os.raws.countP
          (fun d => hasNum d && !isSelf os.current_pid d && !badLayer d && isCC d) ∧
      (∀ w : WindowInfo,
        w ∈ (MacWindowProvider.list os env snap ct).results ↔
          ∃ d ∈ os.raws, ∃ p, rawToPending os.current_pid d = some p ∧
            w = entryToInfo ct env (mkEntry p)) := by
  intro os env snap ct h1 h2
  obtain ⟨hp, hs, hl, hc⟩ := firstPass_spec os.current_pid os.raws
  rw [list_ok os env snap ct h1 h2]
  refine ⟨?_, hs, hl, hc, ?_⟩
  · simp only [List.length_map, hp, length_filterMap_countP]
    congr 1
    funext d
    exact rawToPending_isSome os.current_pid d
  · intro w
    simp only [List.map_map, hp, List.mem_map, List.mem_filterMap]
    constructor
    · rintro ⟨p, ⟨d, hd, hdp⟩, hpw⟩
      exact ⟨d, hd, p, hdp, hpw.symm⟩
    · rintro ⟨d, hd, p, hdp, hpw⟩
      exact ⟨p, ⟨d, hd, hdp⟩, hpw.symm⟩

/-- C9 witness: a concrete enumeration containing one record per filter
plus one survivor. -/
theorem enumeration_filter_pipeline_witness :
    (osMix.window_list_ok = true ∧ osMix.descriptions_ok = true) ∧
    (MacWindowProvider.list osMix capNone [] false).results.length =
      osMix.raws.countP (passAll osMix.current_pid) ∧
    (MacWindowProvider.list osMix capNone [] false).skipped_self =
      osMix.raws.countP (fun d => hasNum d && isSelf osMix.current_pid d) ∧
    (MacWindowProvider.list osMix capNone [] false).skipped_layers =
      osMix.raws.countP
        (fun d => hasNum d && !isSelf osMix.current_pid d && badLayer d) ∧
    (MacWindowProvider.list osMix capNone [] false).skipped_cc =
      osMix.raws.countP
        (fun d => hasNum d && !isSelf osMix.current_pid d && !badLayer d && isCC d) ∧
    ((⟨"4", "Apple", "Safari", false, none⟩ : WindowInfo) ∈
        (MacWindowProvider.list osMix capNone [] false).results ↔
      ∃ d ∈ osMix.raws, ∃ p, rawToPending osMix.current_pid d = some p ∧
        (⟨"4", "Apple", "Safari", false, none⟩ : WindowInfo) =
          entryToInfo false capNone (mkEntry p)) :=
  ⟨⟨rfl, rfl⟩,
   (enumeration_filter_pipeline osMix capNone [] false rfl rfl).1,
   (enumeration_filter_pipeline osMix capNone [] false rfl rfl).2.1,
   (enumeration_filter_pipeline osMix capNone [] false rfl rfl).2.2.1,
   (enumeration_filter_pipeline osMix capNone [] false rfl rfl).2.2.2.1,
   (enumeration_filter_pipeline osMix capNone [] false rfl rfl).2.2.2.2 _⟩

/-- C8 (amended): clear_cache is a no-op (the only cache it ever cleared,
the title cache, no longer exists); every list() performs a full fresh
query whose results are independent of whatever the snapshot held, and
after clear_cache followed by a list() an id absent from the enumeration
cannot be resolved any more.  But clear_cache itself does not invalidate
the snapshot, so until that next list() runs, stale entries keep
influencing activation resolution — refuted by the counterexample. -/
theorem clear_cache_noop_and_fresh_enumeration :
    (∀ snap : Snapshot, MacWindowProvider.clear_cache snap = snap) ∧
    (∀ (os : OsEnv) (env : CaptureEnv) (snap snap' : Snapshot) (ct : Bool),
      (MacWindowProvider.list os env snap ct).results =
        (MacWindowProvider.list os env snap' ct).results) ∧
    (∀ (os : OsEnv) (env : CaptureEnv) (snap : Snapshot) (ct : Bool) (id : String),
      os.window_list_ok = true → os.descriptions_ok = true →
      (∀ w ∈ (MacWindowProvider.list os env snap ct).results, w.id ≠ id) →
      snapFind (MacWindowProvider.list os env
          (MacWindowProvider.clear_cache snap) ct).snapshot id = none) := by
  refine ⟨fun _ => rfl, ?_, ?_⟩
  · intro os env snap snap' ct
    rcases hw : os.window_list_ok with _ | _
    · rw [list_fail os env snap ct (Or.inl hw), list_fail os env snap' ct (Or.inl hw)]
    · rcases hd : os.descriptions_ok with _ | _
      · rw [list_fail os env snap ct (Or.inr hd), list_fail os env snap' ct (Or.inr hd)]
      · rw [list_ok os env snap ct hw hd, list_ok os env snap' ct hw hd]
  · intro os env snap ct id h1 h2 hids
    rw [list_ok os env snap ct h1 h2] at hids
    rw [show MacWindowProvider.clear_cache snap = snap from rfl,
      list_ok os env snap ct h1 h2]
    rw [snapFind_refreshSnapshot_none]
    intro e he
    have hmem : entryToInfo ct env e ∈
        ((firstPass os.current_pid os.raws).pending.map mkEntry).map
          (entryToInfo ct env) :=
      List.mem_map_of_mem (entryToInfo ct env) he
    have := hids (entryToInfo ct env e) hmem
    simpa [entryToInfo] using this

/-- C8 witness: clearing then listing against a concrete OS that no longer
has window 42 makes the stale id unresolvable. -/
theorem clear_cache_noop_witness :
    (osNow.window_list_ok = true ∧ osNow.descriptions_ok = true ∧
      (∀ w ∈ (MacWindowProvider.list osNow capNone snapStale false).results,
        w.id ≠ "42")) ∧
    MacWindowProvider.clear_cache snapStale = snapStale ∧
    (MacWindowProvider.list osNow capNone snapStale false).results =
      (MacWindowProvider.list osNow capNone [] false).results ∧
    snapFind (MacWindowProvider.list osNow capNone
        (MacWindowProvider.clear_cache snapStale) false).snapshot "42" = none :=
  ⟨⟨rfl, rfl, by decide⟩,
   clear_cache_noop_and_fresh_enumeration.1 snapStale,
   clear_cache_noop_and_fresh_enumeration.2.1 osNow capNone snapStale [] false,
   clear_cache_noop_and_fresh_enumeration.2.2 osNow capNone snapStale false "42"
     rfl rfl (by decide)⟩

/-- C8 counterexample: window id 42 is absent from the current
enumeration, yet immediately after clear_cache an activate(42) resolves the
stale snapshot entry with zero re-lists and succeeds instead of failing
not-found — pre-existing cache contents influence activation resolution
after clear_cache. -/
theorem clear_cache_stale_influence_refuted :
    MacWindowProvider.clear_cache snapStale = snapStale ∧
    (∀ w ∈ (MacWindowProvider.list osNow capNone snapStale false).results,
      w.id ≠ "42") ∧
    (MacWindowProvider.activate osNow capNone oracleOk
      (MacWindowProvider.clear_cache snapStale) "42").listCalls = 0 ∧
    (MacWindowProvider.activate osNow capNone oracleOk
      (MacWindowProvider.clear_cache snapStale) "42").result = none := by
  decide

theorem list_snapshot_find_stable (os : OsEnv) (env : CaptureEnv) (snap : Snapshot)
    (id : String) (ct ct' : Bool) (h1 : snapFind snap id = none)
    (h2 : snapFind (MacWindowProvider.list os env snap ct).snapshot id = none) :
    snapFind (MacWindowProvider.list os env
      (MacWindowProvider.list os env snap ct).snapshot ct').snapshot id = none := by
  rcases hw : os.window_list_ok with _ | _
  · rw [list_fail os env snap ct (Or.inl hw)]
    show snapFind (MacWindowProvider.list os env snap ct').snapshot id = none
    rw [list_fail os env snap ct' (Or.inl hw)]
    exact h1
  · rcases hd : os.descriptions_ok with _ | _
    · rw [list_fail os env snap ct (Or.inr hd)]
      show snapFind (MacWindowProvider.list os env snap ct').snapshot id = none
      rw [list_fail os env snap ct' (Or.inr hd)]
      exact h1
    · rw [list_ok os env snap ct hw hd] at h2
      rw [list_ok os env snap ct hw hd]
      show snapFind (MacWindowProvider.list os env
        (refreshSnapshot ((firstPass os.current_pid os.raws).pending.map mkEntry))
        ct').snapshot id = none
      rw [list_ok os env _ ct' hw hd]
      exact h2

theorem activate_of_unresolved (os : OsEnv) (env : CaptureEnv) (oracle : ActOracle)
    (s : Snapshot) (id : String) (ha : snapFind s id = none)
    (hb : snapFind (MacWindowProvider.list os env s false).snapshot id = none) :
    MacWindowProvider.activate os env oracle s id =
      ⟨some (ActError.notFound id), (MacWindowProvider.list os env s false).snapshot,
        1, false, none, 0⟩ := by
  have hres : resolveEntry os env s id =
      (none, (MacWindowProvider.list os env s false).snapshot, 1) := by
    simp [resolveEntry, ha, hb]
  simp [MacWindowProvider.activate, hres]

/-- C2 (amended): for the native provider, activate on an id that is
missing from the cached snapshot and still missing after a fresh
enumeration performs exactly one internal list(false) and returns the
not-found error; nothing negative is cached, so a second activate on the
resulting snapshot again performs exactly one re-list and fails the same
way.  The mock provider, by contrast, performs no re-enumeration and
returns Ok for every id, refuting the original claim for that variant. -/
theorem activate_unknown_id_not_found :
    (∀ (os : OsEnv) (env : CaptureEnv) (oracle : ActOracle) (snap : Snapshot)
        (id : String),
      snapFind snap id = none →
      snapFind (MacWindowProvider.list os env snap false).snapshot id = none →
      (MacWindowProvider.activate os env oracle snap id).result =
        some (ActError.notFound id) ∧
      (MacWindowProvider.activate os env oracle snap id).listCalls = 1 ∧
      (MacWindowProvider.activate os env oracle
        (MacWindowProvider.activate os env oracle snap id).snapshot id).result =
        some (ActError.notFound id) ∧
      (MacWindowProvider.activate os env oracle
        (MacWindowProvider.activate os env oracle snap id).snapshot id).listCalls = 1) ∧
    (∀ id : String, MockWindowProvider.activate id = ⟨none, 0⟩) := by
  refine ⟨?_, fun _ => rfl⟩
  intro os env oracle snap id h1 h2
  have hA := activate_of_unresolved os env oracle snap id h1 h2
  have hA2 := activate_of_unresolved os env oracle
    (MacWindowProvider.activate os env oracle snap id).snapshot id
    (by rw [hA]; exact h2)
    (by rw [hA]; exact list_snapshot_find_stable os env snap id false false h1 h2)
  rw [hA2, hA]
  exact ⟨rfl, rfl, rfl, rfl⟩

/-- C2 witness: activating the unknown id 9 against a concrete OS with one
window of id 7: one re-list, not-found, and the same again on a second
call. -/
theorem activate_unknown_id_witness :
    (snapFind ([] : Snapshot) "9" = none ∧
      snapFind (MacWindowProvider.list osNow capNone [] false).snapshot "9" = none) ∧
    (MacWindowProvider.activate osNow capNone oracleOk [] "9").result =
      some (ActError.notFound "9") ∧
    (MacWindowProvider.activate osNow capNone oracleOk [] "9").listCalls = 1 ∧
    (MacWindowProvider.activate osNow capNone oracleOk
      (MacWindowProvider.activate osNow capNone oracleOk [] "9").snapshot "9").result =
      some (ActError.notFound "9") ∧
    (MacWindowProvider.activate osNow capNone oracleOk
      (MacWindowProvider.activate osNow capNone oracleOk [] "9").snapshot "9").listCalls =
      1 ∧
    MockWindowProvider.activate "9" = ⟨none, 0⟩ :=
  ⟨⟨rfl, by decide⟩,
   (activate_unknown_id_not_found.1 osNow capNone oracleOk [] "9" rfl (by decide)).1,
   (activate_unknown_id_not_found.1 osNow capNone oracleOk [] "9" rfl (by decide)).2.1,
   (activate_unknown_id_not_found.1 osNow capNone oracleOk [] "9" rfl (by decide)).2.2.1,
   (activate_unknown_id_not_found.1 osNow capNone oracleOk [] "9" rfl (by decide)).2.2.2,
   activate_unknown_id_not_found.2 "9"⟩

/-- C2 counterexample: MockWindowProvider::activate with a missing id
returns Ok(()) and performs zero re-enumerations, not the claimed single
re-list followed by a not-found error. -/
theorem mock_activate_unknown_refuted :
    (MockWindowProvider.activate "missing-id").result = none ∧
    (MockWindowProvider.activate "missing-id").listCalls = 0 ∧
    (MockWindowProvider.activate "missing-id").result ≠
      some (ActError.notFound "missing-id") := by
  decide

theorem finePhase_result (oracle : ActOracle) (e : MacWindowEntry) (s : Snapshot)
    (n : Nat) : (finePhase oracle e s n).result = none := by
  cases hft : e.is_title_fallback <;> cases hp : e.owner_pid <;>
    simp [finePhase, hft, hp]

theorem finePhase_attempted (oracle : ActOracle) (e : MacWindowEntry) (s : Snapshot)
    (n : Nat) :
    (finePhase oracle e s n).fineAttempted = (!e.is_title_fallback && e.owner_pid.isSome) := by
  cases hft : e.is_title_fallback <;> cases hp : e.owner_pid <;>
    simp [finePhase, hft, hp]

theorem finePhase_delay (oracle : ActOracle) (e : MacWindowEntry) (s : Snapshot)
    (n : Nat) :
    (finePhase oracle e s n).delayMs =
      if (!e.is_title_fallback && e.owner_pid.isSome) then 150 else 0 := by
  cases hft : e.is_title_fallback <;> cases hp : e.owner_pid <;>
    simp [finePhase, hft, hp]

theorem finePhase_raise (oracle : ActOracle) (e : MacWindowEntry) (s : Snapshot)
    (n : Nat) (p : Int) (hp : e.owner_pid = some p) (hf : e.is_title_fallback = false) :
    finePhase oracle e s n =
      ⟨none, s, n, true, some (activate_window_by_title oracle p e.title), 150⟩ := by
  simp [finePhase, hf, hp]

theorem appStepErr_congr (oracle oracle' : ActOracle) (e : MacWindowEntry)
    (hp : oracle'.pidActivateOk = oracle.pidActivateOk)
    (ho : oracle'.openOk = oracle.openOk) :
    appStepErr oracle' e = appStepErr oracle e := by
  unfold appStepErr appActivated
  rw [hp, ho]

/-- C5 (amended): the fine-grained raise step runs only for a resolved
entry with a non-fallback title and a known pid, after the 150ms settle
delay, recording the outcome of the accessibility substring search; it is
never attempted for a fallback title, regardless of pid; and the answers of
the raise machinery are immaterial to the overall result — whenever the
step is reached the call returns success.  But reaching it also requires
the application-level phase to have succeeded (appStepErr = none): when
both activation strategies fail, the call errors out first, refuting the
unconditional if-and-only-if of the original claim. -/
theorem activate_fine_grained_policy :
    (∀ (os : OsEnv) (env : CaptureEnv) (oracle : ActOracle) (snap : Snapshot)
        (id : String),
      (MacWindowProvider.activate os env oracle snap id).fineAttempted = true →
      ((resolveEntry os env snap id).1.map
          (fun e => (e.is_title_fallback, e.owner_pid.isSome))) = some (false, true) ∧
      (MacWindowProvider.activate os env oracle snap id).result = none ∧
      (MacWindowProvider.activate os env oracle snap id).delayMs = 150) ∧
    (∀ (os : OsEnv) (env : CaptureEnv) (oracle : ActOracle) (snap : Snapshot)
        (id : String) (e : MacWindowEntry) (p : Int),
      (resolveEntry os env snap id).1 = some e → e.is_title_fallback = false →
      e.owner_pid = some p → appStepErr oracle e = none →
      (MacWindowProvider.activate os env oracle snap id).fineAttempted = true ∧
      (MacWindowProvider.activate os env oracle snap id).delayMs = 150 ∧
      (MacWindowProvider.activate os env oracle snap id).result = none ∧
      (MacWindowProvider.activate os env oracle snap id).raiseResult =
        some (activate_window_by_title oracle p e.title)) ∧
    (∀ (os : OsEnv) (env : CaptureEnv) (oracle oracle' : ActOracle) (snap : Snapshot)
        (id : String),
      oracle'.pidActivateOk = oracle.pidActivateOk →
      oracle'.openOk = oracle.openOk →
      (MacWindowProvider.activate os env oracle snap id).result =
        (MacWindowProvider.activate os env oracle' snap id).result ∧
      (MacWindowProvider.activate os env oracle snap id).fineAttempted =
        (MacWindowProvider.activate os env oracle' snap id).fineAttempted) ∧
    (∀ (os : OsEnv) (env : CaptureEnv) (oracle : ActOracle) (snap : Snapshot)
        (id : String) (e : MacWindowEntry),
      (resolveEntry os env snap id).1 = some e → e.is_title_fallback = true →
      (MacWindowProvider.activate os env oracle snap id).fineAttempted = false) := by
  refine ⟨?_, ?_, ?_, ?_⟩
  · intro os env oracle snap id hatt
    rcases hres : resolveEntry os env snap id with ⟨e?, s1, n⟩
    rcases e? with _ | e
    · rw [MacWindowProvider.activate, hres] at hatt
      simp at hatt
    · rcases happ : appStepErr oracle e with _ | err
      · rw [MacWindowProvider.activate, hres] at hatt ⊢
        simp only [happ] at hatt ⊢
        rw [finePhase_attempted] at hatt
        have hfb : e.is_title_fallback = false ∧ e.owner_pid.isSome = true := by
          rcases hb : e.is_title_fallback <;> rcases hpb : e.owner_pid.isSome <;>
            simp [hb, hpb] at hatt <;> exact ⟨rfl, rfl⟩
        refine ⟨by simp [hfb.1, hfb.2], finePhase_result oracle e s1 n, ?_⟩
        rw [finePhase_delay]
        simp [hfb.1, hfb.2]
      · rw [MacWindowProvider.activate, hres] at hatt
        simp only [happ] at hatt
        simp at hatt
  · intro os env oracle snap id e p hres1 hf hp happ
    rcases hres : resolveEntry os env snap id with ⟨e?, s1, n⟩
    rw [hres] at hres1
    rcases e? with _ | e'
    · simp at hres1
    · have he : e' = e := by simpa using hres1
      subst he
      rw [MacWindowProvider.activate, hres]
      simp only [happ]
      rw [finePhase_raise oracle e' s1 n p hp hf]
      exact ⟨rfl, rfl, rfl, rfl⟩
  · intro os env oracle oracle' snap id hpid hopen
    rcases hres : resolveEntry os env snap id with ⟨e?, s1, n⟩
    rcases e? with _ | e
    · rw [MacWindowProvider.activate, MacWindowProvider.activate, hres]
      exact ⟨rfl, rfl⟩
    · rw [MacWindowProvider.activate, MacWindowProvider.activate, hres]
      dsimp only
      rw [appStepErr_congr oracle oracle' e hpid hopen]
      rcases happ : appStepErr oracle e with _ | err
      · simp only [happ]
        exact ⟨(finePhase_result oracle e s1 n).trans
            (finePhase_result oracle' e s1 n).symm,
          (finePhase_attempted oracle e s1 n).trans
            (finePhase_attempted oracle' e s1 n).symm⟩
      · simp [happ]
  · intro os env oracle snap id e hres1 hf
    rcases hres : resolveEntry os env snap id with ⟨e?, s1, n⟩
    rw [hres] at hres1
    rcases e? with _ | e'
    · simp at hres1
    · have he : e' = e := by simpa using hres1
      subst he
      rw [MacWindowProvider.activate, hres]
      rcases happ : appStepErr oracle e' with _ | err
      · simp only [happ]
        rw [finePhase_attempted]
        simp [hf]
      · simp only [happ]


/-- C5 witness: a resolvable non-fallback entry with a pid under an oracle
whose activation succeeds attempts the raise after 150ms; changing only the
AX answers changes neither result nor attempt; a fallback entry never
attempts it. -/
theorem activate_fine_grained_policy_witness :
    ((MacWindowProvider.activate osEmpty capNone oracleOk snapC5 "5").fineAttempted =
        true ∧
      ((resolveEntry osEmpty capNone snapC5 "5").1.map
        (fun e => (e.is_title_fallback, e.owner_pid.isSome))) = some (false, true) ∧
      (MacWindowProvider.activate osEmpty capNone oracleOk snapC5 "5").result = none ∧
      (MacWindowProvider.activate osEmpty capNone oracleOk snapC5 "5").delayMs = 150) ∧
    ((MacWindowProvider.activate osEmpty capNone oracleOk snapC5 "5").raiseResult =
      some (activate_window_by_title oracleOk 9 "notes.txt")) ∧
    ((MacWindowProvider.activate osEmpty capNone oracleOk snapC5 "5").result =
        (MacWindowProvider.activate osEmpty capNone oracleRaise snapC5 "5").result ∧
      (MacWindowProvider.activate osEmpty capNone oracleOk snapC5 "5").fineAttempted =
        (MacWindowProvider.activate osEmpty capNone oracleRaise snapC5 "5").fineAttempted) ∧
    (MacWindowProvider.activate osNow capNone oracleOk snapStale "42").fineAttempted =
      false :=
  ⟨⟨by decide,
    activate_fine_grained_policy.1 osEmpty capNone oracleOk snapC5 "5" (by decide)⟩,
   (activate_fine_grained_policy.2.1 osEmpty capNone oracleOk snapC5 "5"
      ⟨"5", "EditorApp", "notes.txt", false, some 9⟩ 9 (by decide) rfl rfl
      (by decide)).2.2.2,
   activate_fine_grained_policy.2.2.1 osEmpty capNone oracleOk oracleRaise snapC5 "5"
     rfl rfl,
   activate_fine_grained_policy.2.2.2 osNow capNone oracleOk snapStale "42"
     ⟨"42", "GoneApp", "GoneApp", true, some 4⟩ (by decide) rfl⟩

/-- C5 counterexample: an entry with a known pid and a non-fallback title
for which pid-level activation and open -a both fail: activate returns the
activation error and the fine-grained step is never attempted, refuting the
claimed if-and-only-if. -/
theorem activate_fine_step_iff_refuted :
    (resolveEntry osEmpty capNone snapC5 "5").1 =
      some ⟨"5", "EditorApp", "notes.txt", false, some 9⟩ ∧
    (MacWindowProvider.activate osEmpty capNone oracleFail snapC5 "5").fineAttempted =
      false ∧
    (MacWindowProvider.activate osEmpty capNone oracleFail snapC5 "5").result =
      some ActError.openFailed := by
  decide
